import Mathlib

/-!
Verification of the weibo_trends analyzer (src/src/weibo_trends_analyzer.py).

This file embeds the analysis pipeline of `WeiboTrendsAnalyzer` as Lean
definitions and proves properties about them:

* the keyword-pattern dispatch and template library of
  `analyze_hotspot_basic` (lines 274-574 of the source),
* the heat-based score adjustment and grade derivation (lines 539-558),
* the batch analyzers `analyze_basic` (576-583) and `analyze_with_claude`
  (118-272) with their fallback chain,
* the heat-string parsing of `fetch_hotspots` (91-116), and
* the per-category breakdown of `generate_markdown_report` (604-627).

Modelling conventions:

* Python `int` values become `Int` (scores) or `Nat` (heat, ranks);
* `random.choice(creative_templates)` becomes an explicit index argument
  `rnd : Nat`, consulted only on the no-match branch (for batch functions an
  oracle `rnd : Nat → Nat` supplies one choice per topic index);
* `re.search(pattern, title, re.IGNORECASE)` for the alternation patterns of
  the template table becomes a case-insensitive substring search for any of
  the pattern's literal alternatives (the single non-literal piece is the
  alternative `苹果\d`, a literal followed by one digit);
* the outcome of the external model call (client availability, JSON-array
  extraction, JSON parsing, transport errors) is an explicit
  `ClaudeOutcome` argument, since the call itself is an external
  collaborator; successfully parsed response objects are records of
  optional fields, mirroring `analysis.get(..., default)` access;
* exceptions become `Except Unit` (the `try ... except: return []` of
  `fetch_hotspots`).
-/

/-- The characters of a string, lowercased (strings are handled throughout
as their character lists, which the kernel can evaluate). -/
def lowerData (s : String) : List Char := s.data.map Char.toLower

/-- Python `str.strip()` on the character list: whitespace removed from
both ends. -/
def trimChars (l : List Char) : List Char :=
  ((l.dropWhile Char.isWhitespace).reverse.dropWhile Char.isWhitespace).reverse

/-- Python `str.strip()` as a string operation. -/
def strip (s : String) : String := String.mk (trimChars s.data)

/-- One alternative of a keyword alternation pattern: either a literal
keyword, or (for the source's `苹果\d`) a literal followed by one digit. -/
inductive Alt where
  | kw (s : String)
  | kwDigit (s : String)
deriving DecidableEq

/-- Does the alternative match at the front of the (lowercased) character
list?  Case-insensitivity is obtained by lowercasing both the title and the
keyword, matching `re.IGNORECASE` on the ASCII keywords of the table. -/
def altAtFront : Alt → List Char → Bool
  | .kw s, l => (lowerData s).isPrefixOf l
  | .kwDigit s, l =>
      let p := lowerData s
      p.isPrefixOf l &&
        match l.drop p.length with
        | c :: _ => c.isDigit
        | [] => false

/-- Does the alternative match anywhere in the character list
(`re.search` semantics)? -/
def altSearch (a : Alt) : List Char → Bool
  | [] => altAtFront a []
  | c :: t => altAtFront a (c :: t) || altSearch a (c :: t).tail

/-- One pattern of the template table is an alternation of alternatives. -/
abbrev Pattern := List Alt

/-- Embeds `re.search(pattern, title, re.IGNORECASE)` for an alternation
pattern of the template table: some alternative occurs in the title. -/
def patMatches (p : Pattern) (title : String) : Bool :=
  p.any fun a => altSearch a (lowerData title)

/-- A pre-authored analysis template of `idea_templates` (source lines
277-488): all templates carry the full field set, with `score` the base
score later adjusted by heat. -/
structure Template where
  category : String
  sentiment : String
  name : String
  function : String
  users : String
  hidden_need : String
  creative_method : String
  business_value : String
  innovation : String
  barrier : String
  score : Int
deriving DecidableEq

/-- Shorthand for building a `Pattern` from literal keywords. -/
def kws (l : List String) : Pattern := l.map Alt.kw

/-- The ordered template table `idea_templates` of `analyze_hotspot_basic`
(source lines 277-488).  Python iterates `dict.items()` in insertion order,
so the table is an ordered association list here. -/
def idea_templates : List (Pattern × Template) := [
  (kws ["火灾", "安全", "事故", "爆炸", "地震", "灾害"],
   { category := "社会安全", sentiment := "负面",
     name := "「守护者」家庭安全机器人",
     function := "1.AI视觉识别危险行为 2.多传感器环境监测 3.一键SOS联动救援",
     users := "有老人小孩的家庭、独居人群、高端社区",
     hidden_need := "人们需要的不是警报，而是「被守护」的安心感",
     creative_method := "跨界融合：安全监测 + 陪伴机器人",
     business_value := "硬件销售(3999元/台) + 月费服务(99元/月) + 保险合作分成",
     innovation := "把冷冰冰的安防设备变成有温度的家庭成员",
     barrier := "硬件+AI算法+救援网络的组合壁垒",
     score := 88 }),
  (kws ["篮球", "足球", "网球", "体育", "运动", "比赛", "夺冠", "奥运", "世界杯", "冠军"],
   { category := "体育", sentiment := "正面",
     name := "「球探RPG」体育养成游戏",
     function := "1.真实球员数据驱动 2.经理人养成玩法 3.实时赛事联动奖励",
     users := "18-35岁男性球迷、游戏玩家、体育博彩替代需求",
     hidden_need := "球迷想要「参与感」而非只是旁观者",
     creative_method := "游戏化：体育观赛 + RPG养成机制",
     business_value := "内购道具 + 赛季通行证 + 品牌赞助植入，预计年收入5000万+",
     innovation := "用游戏机制激活被动观赛用户，创造日活粘性",
     barrier := "体育版权合作 + 游戏研发能力双门槛",
     score := 86 }),
  (kws ["太空", "航天", "火箭", "卫星", "探测", "月球", "火星", "宇宙"],
   { category := "科技", sentiment := "正面",
     name := "「星际公民」AR太空探索",
     function := "1.手机AR模拟太空行走 2.收集虚拟星球NFT 3.航天任务剧情游戏",
     users := "10-25岁学生、科幻爱好者、亲子教育场景",
     hidden_need := "每个人内心都有一个太空梦，但99.99%的人无法实现",
     creative_method := "SCAMPER-适应：把专业航天体验平民化",
     business_value := "虚拟道具销售 + 教育机构授权 + 航天周边电商",
     innovation := "用游戏降低航天科普门槛，用NFT创造收藏价值",
     barrier := "NASA/中国航天授权 + AR技术积累",
     score := 89 }),
  (kws ["电影", "电视剧", "综艺", "票房", "演员", "导演", "剧集", "追剧"],
   { category := "娱乐", sentiment := "中性",
     name := "「剧本杀影院」沉浸式观影",
     function := "1.AI生成平行剧情分支 2.观众投票决定剧情走向 3.线下观影+线上互动",
     users := "18-30岁城市青年、情侣约会、闺蜜社交",
     hidden_need := "观众厌倦被动接受，想要成为故事的参与者",
     creative_method := "逆向思维：从「看剧」变成「玩剧」",
     business_value := "票价溢价(88-168元) + 剧情道具销售 + 影视IP合作",
     innovation := "把单向的影视消费变成双向互动体验",
     barrier := "影院合作资源 + AI剧情生成技术",
     score := 84 }),
  (kws ["手机", "小米", "华为", "iPhone", "数码", "电脑", "平板", "荣耀", "vivo", "OPPO"]
     ++ [Alt.kwDigit "苹果"] ++ kws ["苹果手机", "苹果发布", "苹果新品"],
   { category := "消费电子", sentiment := "中性",
     name := "「数码遗嘱」设备传承服务",
     function := "1.数字资产一键迁移 2.设备使用习惯继承 3.旧设备残值最大化",
     users := "换机频繁用户、数字资产丰富者、家庭多设备用户",
     hidden_need := "换新设备的痛点不是价格，而是「数字生活断裂」",
     creative_method := "极端用户法：关注换机时「失去」的焦虑",
     business_value := "服务订阅(年费199) + 以旧换新溢价 + 设备回收差价",
     innovation := "从卖设备转向「卖数字生活连续性」",
     barrier := "跨品牌数据迁移技术 + 用户信任积累",
     score := 82 }),
  (kws ["AI", "人工智能", "ChatGPT", "GPT", "大模型", "机器人", "智能"],
   { category := "科技", sentiment := "正面",
     name := "「AI分身」数字克隆服务",
     function := "1.学习你的说话方式 2.代你处理简单沟通 3.7x24小时在线响应",
     users := "企业高管、网红KOL、高净值人群、远距离家庭",
     hidden_need := "人们缺的不是AI助手，而是「另一个自己」",
     creative_method := "第一性原理：AI的终极价值是「人的延伸」",
     business_value := "高端订阅(999元/月) + 企业定制 + API调用",
     innovation := "从通用AI到「个人AI」，每个人都有专属AI分身",
     barrier := "个性化训练技术 + 数据隐私合规",
     score := 93 }),
  (kws ["股票", "基金", "理财", "投资", "A股", "暴涨", "暴跌", "牛市", "熊市", "金银"],
   { category := "金融", sentiment := "中性",
     name := "「后悔药」模拟投资复盘",
     function := "1.历史买卖点回测 2.平行宇宙收益对比 3.投资心理分析报告",
     users := "散户投资者、投资教育用户、金融专业学生",
     hidden_need := "投资者真正的痛点是「后悔」和「不甘心」",
     creative_method := "逆向思维：不预测未来，而是复盘过去",
     business_value := "工具订阅(月费39元) + 投教课程 + 券商导流",
     innovation := "把「后悔」情绪产品化，用复盘替代预测",
     barrier := "历史数据完整性 + 心理学算法模型",
     score := 85 }),
  (kws ["春运", "春节", "车票", "高铁", "火车", "抢票", "回家", "返乡"],
   { category := "民生出行", sentiment := "中性",
     name := "「拼座」返乡顺风车联盟",
     function := "1.私家车主+乘客智能匹配 2.企业包车拼团 3.沿途城市接力换乘",
     users := "二三线城市返乡人群、有车族、企业HR",
     hidden_need := "春运的本质问题是「供需时空错配」",
     creative_method := "10x思维：不是优化抢票，而是创造新运力",
     business_value := "服务费抽成(10%) + 保险销售 + 沿途商业合作",
     innovation := "把闲置私家车运力聚合起来解决春运难题",
     barrier := "安全信任体系 + 政策合规 + 规模效应",
     score := 80 }),
  (kws ["明星", "爱豆", "粉丝", "演唱会", "idol", "偶像", "出道", "应援"],
   { category := "娱乐", sentiment := "正面",
     name := "「饭圈DAO」粉丝共创平台",
     function := "1.粉丝投票决策明星活动 2.应援贡献积分链上存证 3.限量周边NFT发行",
     users := "核心粉丝群体、饭圈组织者、娱乐公司",
     hidden_need := "粉丝要的不只是追星，而是「被看见的贡献」",
     creative_method := "跨界融合：粉丝经济 + DAO治理 + Web3",
     business_value := "NFT发行分成 + 活动策划费 + 周边电商",
     innovation := "用区块链让粉丝贡献可追溯、可变现",
     barrier := "头部艺人合作 + 粉丝社群运营能力",
     score := 78 }),
  (kws ["立春", "春分", "谷雨", "清明", "节气", "躲春", "咬春", "习俗", "传统"],
   { category := "文化", sentiment := "正面",
     name := "「节气盲盒」文化体验订阅",
     function := "1.每个节气寄送主题盲盒 2.AR扫描解锁节气故事 3.线下节气市集联动",
     users := "25-40岁文化消费者、亲子家庭、送礼需求",
     hidden_need := "现代人对传统文化是「想了解但没时间」",
     creative_method := "SCAMPER-合并：节气文化 + 盲盒经济 + AR科技",
     business_value := "订阅制(年费698元) + 单品销售 + 品牌联名",
     innovation := "把抽象的传统文化变成可触摸、可分享的体验",
     barrier := "供应链整合 + 文化IP授权 + 内容创作",
     score := 86 }),
  (kws ["美食", "餐厅", "吃", "菜", "火锅", "烧烤", "外卖", "食物", "食品安全", "中毒"],
   { category := "健康", sentiment := "中性",
     name := "「食愈」情绪化饮食顾问",
     function := "1.根据情绪推荐食谱 2.AI营养师定制菜单 3.食材一键配送到家",
     users := "独居青年、健身人群、饮食焦虑者",
     hidden_need := "吃什么的背后是「今天心情如何」",
     creative_method := "跨界融合：心理学 + 营养学 + 即时配送",
     business_value := "会员订阅(月费79元) + 食材电商 + 餐饮品牌合作",
     innovation := "从「吃什么」升维到「今天需要什么能量」",
     barrier := "情绪识别算法 + 营养学知识图谱 + 供应链",
     score := 84 }),
  (kws ["考试", "高考", "考研", "学生", "老师", "学校", "毕业", "大学", "中学"],
   { category := "教育", sentiment := "中性",
     name := "「时光机」未来职业体验",
     function := "1.VR体验100种职业日常 2.AI生成你的职业适配度 3.与从业者1v1连线",
     users := "高中生、大学生、迷茫期职场人、家长",
     hidden_need := "学生填志愿时根本不了解这个专业未来做什么",
     creative_method := "逆向思维：不是教「怎么考」而是展示「为什么考」",
     business_value := "体验付费(单次98元) + 学校采购 + 企业雇主品牌合作",
     innovation := "用沉浸式体验解决职业认知盲区",
     barrier := "VR内容制作 + 各行业人脉资源",
     score := 87 }),
  (kws ["房价", "买房", "租房", "装修", "房子", "楼市", "房贷"],
   { category := "房产", sentiment := "中性",
     name := "「邻里值」社区透明度指数",
     function := "1.小区真实居住体验评分 2.邻居画像匿名展示 3.物业服务实时监督",
     users := "购房者、租房者、社区居民、物业公司",
     hidden_need := "买房最大的未知数是「未来的邻居和物业」",
     creative_method := "极端用户法：关注入住后的「后悔」场景",
     business_value := "房产平台合作分成 + 物业SaaS + 社区广告",
     innovation := "把社区软实力量化，让买房决策更透明",
     barrier := "数据采集难度 + 隐私合规 + 用户信任",
     score := 83 }),
  (kws ["宠物", "猫", "狗", "萌宠", "铲屎官", "养猫", "养狗"],
   { category := "宠物", sentiment := "正面",
     name := "「毛孩语」宠物情绪翻译器",
     function := "1.AI识别宠物叫声含义 2.健康状态实时监测 3.宠物社交匹配约玩",
     users := "宠物主人、宠物医院、宠物品牌",
     hidden_need := "铲屎官最大的焦虑是「不知道它想要什么」",
     creative_method := "SCAMPER-替代：用AI替代人的猜测",
     business_value := "硬件销售(299元) + 增值服务 + 宠物电商导流",
     innovation := "真正的「人宠沟通」而非单向照顾",
     barrier := "宠物行为学研究 + AI算法训练数据",
     score := 85 }),
  (kws ["日本", "美国", "俄罗斯", "国际", "外交", "贸易", "关税", "制裁"],
   { category := "国际", sentiment := "中性",
     name := "「世界观」地缘政治可视化",
     function := "1.国际关系动态图谱 2.事件影响链路追踪 3.投资避险预警提示",
     users := "跨境贸易从业者、投资者、时政爱好者、学生",
     hidden_need := "国际新闻太多太碎，普通人看不懂影响",
     creative_method := "第一性原理：复杂信息需要「可视化降维」",
     business_value := "专业版订阅(199元/月) + 企业风控服务 + 智库合作",
     innovation := "把专业地缘政治分析平民化、可视化",
     barrier := "专业分析团队 + 数据源整合",
     score := 81 })]

/-- The three generic fallback templates `creative_templates` (source lines
500-534), built when no pattern matches.  Only the first interpolates the
title (Python `title[:4]`, the first four characters).  The source then sets
`category` and `sentiment` on the chosen template (lines 536-537), so both
fields are already fixed here. -/
def creative_templates (title : String) : List Template := [
  { category := "社会热点", sentiment := "中性",
    name := "「" ++ String.mk (title.data.take 4) ++ "效应」趋势预测引擎",
    function := "1.热点生命周期预测 2.关联话题挖掘 3.营销时机提醒",
    users := "营销从业者、自媒体人、品牌方",
    hidden_need := "热点转瞬即逝，人们需要的是「先知先觉」",
    creative_method := "第一性原理：热点的价值在于「时机把握」",
    business_value := "SaaS订阅(月费299元) + API服务 + 定制报告",
    innovation := "从事后追热点到事前预判热点",
    barrier := "预测算法准确性 + 数据源覆盖度",
    score := 76 },
  { category := "社会热点", sentiment := "中性",
    name := "「反转实验室」真相核查游戏",
    function := "1.热点事件多视角呈现 2.玩家扮演侦探找证据 3.真相揭晓奖励机制",
    users := "信息素养关注者、游戏玩家、学生群体",
    hidden_need := "人们厌倦了被反转打脸，想主动辨别真假",
    creative_method := "游戏化：信息核查 + 侦探游戏机制",
    business_value := "游戏内购 + 教育机构合作 + 媒体合作",
    innovation := "把严肃的事实核查变成有趣的推理游戏",
    barrier := "内容生产能力 + 游戏化设计",
    score := 79 },
  { category := "社会热点", sentiment := "中性",
    name := "「情绪温度计」舆情可视化",
    function := "1.实时公众情绪追踪 2.情绪传染路径分析 3.品牌危机预警",
    users := "企业公关、政府舆情部门、媒体",
    hidden_need := "热点背后是群体情绪，情绪才是真正的机会/风险",
    creative_method := "10x思维：从「事件监测」升级到「情绪感知」",
    business_value := "企业SaaS(年费10万+) + 危机咨询 + 数据报告",
    innovation := "比传统舆情监测早一步感知情绪变化",
    barrier := "情绪识别AI + 全网数据采集能力",
    score := 82 }]

/-- The first-match lookup of `analyze_hotspot_basic` (source lines 490-495):
iterate the template table in declaration order and select the first
template whose pattern matches the title. -/
def findTemplate (title : String) : Option Template :=
  (idea_templates.find? fun pt => patMatches pt.1 title).map Prod.snd

/-- Template selection including the no-match fallback (source lines
490-537): on a match, the first matching template; otherwise
`random.choice(creative_templates)`, embedded as indexing by the
nondeterministic choice `rnd` modulo the list length. -/
def selectTemplate (title : String) (rnd : Nat) : Template :=
  match findTemplate title with
  | some t => t
  | none =>
      (creative_templates title).get
        ⟨rnd % 3, by have h : (creative_templates title).length = 3 := rfl; omega⟩

/-- The heat-based score adjustment (source lines 539-546):

    if heat > 1000000:   score = min(100, base_score + 8)
    elif heat > 500000:  score = min(95, base_score + 4)
    else:                score = base_score
-/
def adjustScore (base : Int) (heat : Nat) : Int :=
  if heat > 1000000 then min 100 (base + 8)
  else if heat > 500000 then min 95 (base + 4)
  else base

/-- The grade thresholds (source lines 548-558). -/
def gradeFor (score : Int) : String :=
  if score ≥ 90 then "卓越"
  else if score ≥ 80 then "优秀"
  else if score ≥ 70 then "良好"
  else if score ≥ 60 then "一般"
  else "较弱"

/-- The analysis record attached to each topic (the dict returned at source
lines 560-574, also the shape built on the model-backed path at 240-254). -/
structure Analysis where
  category : String
  sentiment : String
  name : String
  function : String
  users : String
  hidden_need : String
  creative_method : String
  business_value : String
  innovation : String
  barrier : String
  insight : String
  score : Int
  grade : String
deriving DecidableEq

/-- `analyze_hotspot_basic(title, heat)` (source lines 274-574).  `rnd` is
the nondeterministic choice used only when no pattern matches. -/
def analyze_hotspot_basic (title : String) (heat : Nat) (rnd : Nat) : Analysis :=
  let selected := selectTemplate title rnd
  let score := adjustScore selected.score heat
  { category := selected.category
    sentiment := selected.sentiment
    name := selected.name
    function := selected.function
    users := selected.users
    hidden_need := selected.hidden_need
    creative_method := selected.creative_method
    business_value := selected.business_value
    innovation := selected.innovation
    barrier := selected.barrier
    insight := "基于创意思维模板的分析，已运用SCAMPER/跨界融合/逆向思维等方法"
    score := score
    grade := gradeFor score }

/-- One trending topic as built by `fetch_hotspots` (source lines 98-103). -/
structure Hotspot where
  rank : Nat
  title : String
  heat : Nat
  tag : String
deriving DecidableEq

/-- One element of an analyzer's output: the topic's four fields carried
over unchanged (Python `{**hotspot, 'analysis': ...}`) plus exactly one
attached analysis. -/
structure TopicResult where
  rank : Nat
  title : String
  heat : Nat
  tag : String
  analysis : Analysis
deriving DecidableEq

/-- Attach an analysis to a hotspot, keeping its fields: `{**hotspot,
'analysis': analysis}`. -/
def withAnalysis (h : Hotspot) (a : Analysis) : TopicResult :=
  { rank := h.rank, title := h.title, heat := h.heat, tag := h.tag, analysis := a }

/-- The body of `analyze_basic` (source lines 576-583) with an explicit
topic counter: one rule-based analysis per topic, one nondeterministic
choice per topic index. -/
def analyzeBasicAux (rnd : Nat → Nat) : Nat → List Hotspot → List TopicResult
  | _, [] => []
  | i, h :: hs => withAnalysis h (analyze_hotspot_basic h.title h.heat (rnd i)) ::
      analyzeBasicAux rnd (i + 1) hs

/-- `analyze_basic(hotspots)` (source lines 576-583). -/
def analyze_basic (hotspots : List Hotspot) (rnd : Nat → Nat) : List TopicResult :=
  analyzeBasicAux rnd 0 hotspots

/-- One parsed object of the model's JSON-array response.  Each field is
optional, mirroring the `analysis.get('...', default)` accesses at source
lines 241-253. -/
structure ClaudeItem where
  category : Option String := none
  sentiment : Option String := none
  name : Option String := none
  function : Option String := none
  users : Option String := none
  hidden_need : Option String := none
  creative_method : Option String := none
  business_value : Option String := none
  innovation : Option String := none
  barrier : Option String := none
  insight : Option String := none
  score : Option Int := none
  grade : Option String := none
deriving DecidableEq

/-- Field mapping with per-field defaults for one parsed model object
(source lines 238-255). -/
def claudeAnalysis (h : Hotspot) (a : ClaudeItem) : Analysis :=
  { category := a.category.getD "未分类"
    sentiment := a.sentiment.getD "中性"
    name := a.name.getD (h.title ++ "创意产品")
    function := a.function.getD "待分析"
    users := a.users.getD "广大用户"
    hidden_need := a.hidden_need.getD ""
    creative_method := a.creative_method.getD ""
    business_value := a.business_value.getD "待评估"
    innovation := a.innovation.getD ""
    barrier := a.barrier.getD ""
    insight := a.insight.getD ""
    score := a.score.getD 75
    grade := a.grade.getD "良好" }

/-- Outcome of the external model call in `analyze_with_claude`, an external
collaborator: no configured client (source line 128), no JSON-array
substring in the response text (line 263), a JSON parse failure or any
other exception (lines 270-272), an API error (lines 267-269), or a
successfully parsed list of objects (line 232). -/
inductive ClaudeOutcome where
  | noClient
  | noJsonArray
  | parseFailure
  | apiError
  | ok (items : List ClaudeItem)
deriving DecidableEq

/-- The merge loop of `analyze_with_claude` on the success path (source
lines 234-259): topic `i` uses `analysis_data[i]` when present, and is
otherwise backfilled by `analyze_hotspot_basic`. -/
def mergeClaude (rnd : Nat → Nat) : Nat → List Hotspot → List ClaudeItem → List TopicResult
  | _, [], _ => []
  | i, h :: hs, [] =>
      withAnalysis h (analyze_hotspot_basic h.title h.heat (rnd i)) ::
        mergeClaude rnd (i + 1) hs []
  | i, h :: hs, a :: as =>
      withAnalysis h (claudeAnalysis h a) :: mergeClaude rnd (i + 1) hs as

/-- `analyze_with_claude(hotspots)` (source lines 118-272): on a
successfully parsed response, merge; on every failure outcome, fall back to
`analyze_basic` for the entire batch. -/
def analyze_with_claude (hotspots : List Hotspot) (outcome : ClaudeOutcome)
    (rnd : Nat → Nat) : List TopicResult :=
  match outcome with
  | .ok items => mergeClaude rnd 0 hotspots items
  | _ => analyze_basic hotspots rnd

/-- One raw entry of the topics-source response list, with the three fields
read by `fetch_hotspots` (source lines 93-96); `none` models an absent key,
handled by `item.get(key, default)`. -/
structure RawItem where
  hotword : Option String := none
  hotwordnum : Option String := none
  hottag : Option String := none
deriving DecidableEq

/-- Decimal value of a digit list (the effect of Python `int` on a
non-empty string of digits). -/
def digitsToNat (l : List Char) : Nat :=
  l.foldl (fun acc c => 10 * acc + (c.toNat - 48)) 0

/-- The heat computation of source line 95,

    heat = int(re.sub(r'[^\d]', '', heat_str)) if heat_str else 0

applied to the already-stripped heat string: 0 when the string is empty;
otherwise strip non-digits and convert, where `int('')` raises (the digit
filter left nothing), modelled as `Except.error`. -/
def parseHeat (heat_str : String) : Except Unit Nat :=
  if heat_str.data.isEmpty then .ok 0
  else
    let ds := heat_str.data.filter Char.isDigit
    if ds.isEmpty then .error () else .ok (digitsToNat ds)

/-- Build one hotspot from a raw entry (source lines 93-103): title and tag
default to the empty string and are stripped, the heat string defaults to
"0" and is stripped before parsing; a heat parse error propagates. -/
def buildHotspot (rank : Nat) (item : RawItem) : Except Unit Hotspot :=
  (parseHeat (strip (item.hotwordnum.getD "0"))).map fun heat =>
    { rank := rank
      title := strip (item.hotword.getD "")
      heat := heat
      tag := strip (item.hottag.getD "") }

/-- The construction loop of `fetch_hotspots` (source lines 91-103),
ranks counted from `rank`; the first raised error aborts the loop. -/
def buildHotspots (rank : Nat) : List RawItem → Except Unit (List Hotspot)
  | [] => .ok []
  | it :: rest => do
    let h ← buildHotspot rank it
    let hs ← buildHotspots (rank + 1) rest
    pure (h :: hs)

/-- The entry-processing part of `fetch_hotspots(limit)` (source lines
89-116): take the first `limit` entries, build hotspots with ranks from 1;
the surrounding `try ... except Exception: return []` turns any raised
error into an empty batch. -/
def fetch_hotspots (result_list : List RawItem) (limit : Nat) : List Hotspot :=
  match buildHotspots 1 (result_list.take limit) with
  | .ok hs => hs
  | .error _ => []

/-- The per-category counting of `generate_markdown_report` (source lines
605-609): `categories[cat] = categories.get(cat, 0) + 1`, an
insertion-ordered dict, embedded as an association list updated in place
with new keys appended. -/
def bumpCat (m : List (String × Nat)) (cat : String) : List (String × Nat) :=
  match m with
  | [] => [(cat, 1)]
  | (c, n) :: rest => if c = cat then (c, n + 1) :: rest else (c, n) :: bumpCat rest cat

/-- The category tally over the analysis results, keys in first-seen order
(source lines 605-609, reading `r['analysis'].get('category', '未分类')`;
the embedded analyses always carry a category field). -/
def categoryCounts (results : List TopicResult) : List (String × Nat) :=
  results.foldl (fun m r => bumpCat m r.analysis.category) []

/-- Descending-count comparison used by the category breakdown. -/
def countGe (a b : String × Nat) : Prop := b.2 ≤ a.2

instance : DecidableRel countGe := fun a b => Nat.decLe b.2 a.2

instance : IsTotal (String × Nat) countGe :=
  ⟨fun a b => (Nat.le_total b.2 a.2).imp id id⟩

instance : IsTrans (String × Nat) countGe :=
  ⟨fun _ _ _ h1 h2 => Nat.le_trans h2 h1⟩

/-- The sorted per-category breakdown of the report (source line 625):

    sorted(categories.items(), key=lambda x: x[1], reverse=True)

Python's sort is stable; a stable descending sort by count is exactly
insertion sort with the non-strict comparison `countGe`, which keeps an
element before later elements of equal count. -/
def categoryBreakdown (results : List TopicResult) : List (String × Nat) :=
  (categoryCounts results).insertionSort countGe

/-- First-seen order of the category values in a scan of the results. -/
def firstSeenCats (results : List TopicResult) : List String :=
  results.foldl
    (fun acc r => if r.analysis.category ∈ acc then acc else acc ++ [r.analysis.category]) []

/-- The four topic fields of an output element. -/
def topicFields (r : TopicResult) : Nat × String × Nat × String :=
  (r.rank, r.title, r.heat, r.tag)

/-- The four fields of an input topic. -/
def hotspotFields (h : Hotspot) : Nat × String × Nat × String :=
  (h.rank, h.title, h.heat, h.tag)

/-- A raw entry whose stripped heat string is empty or contains a digit:
exactly the entries whose heat parse cannot raise. -/
def heatOk (it : RawItem) : Prop :=
  (strip (it.hotwordnum.getD "0")).data.isEmpty = true ∨
    (strip (it.hotwordnum.getD "0")).data.any Char.isDigit = true

instance : DecidablePred heatOk := fun _ => instDecidableOr

/-- Description of the records `fetch_hotspots` builds when no heat parse
raises: rank is the 1-based position, the title and tag are the stripped
raw fields, and the heat is the integer value of the digits of the
stripped heat string (0 when there are none to strip away, i.e. the string
was empty). -/
def specHotspots : Nat → List RawItem → List Hotspot
  | _, [] => []
  | rank, it :: rest =>
      { rank := rank
        title := strip (it.hotword.getD "")
        heat := digitsToNat ((strip (it.hotwordnum.getD "0")).data.filter Char.isDigit)
        tag := strip (it.hottag.getD "") } :: specHotspots (rank + 1) rest

/-! ## Helper lemmas -/

/-- Every template selectable by the rule-based analyzer has a base score
in [76, 93]: the declared templates by a finite check, and the three
generic fallback templates (76, 79, 82) by cases. -/
theorem selectTemplate_score_bounds (title : String) (rnd : Nat) :
    76 ≤ (selectTemplate title rnd).score ∧ (selectTemplate title rnd).score ≤ 93 := by
  unfold selectTemplate
  cases hfind : findTemplate title with
  | some t =>
      have hmem : t ∈ idea_templates.map Prod.snd := by
        unfold findTemplate at hfind
        rcases Option.map_eq_some'.mp hfind with ⟨pt, hpt, rfl⟩
        exact List.mem_map_of_mem _ (List.mem_of_find?_eq_some hpt)
      have hall : ∀ t ∈ idea_templates.map Prod.snd, 76 ≤ t.score ∧ t.score ≤ 93 := by
        decide
      exact hall t hmem
  | none =>
      have hmem : (creative_templates title).get
          ⟨rnd % 3, by have h : (creative_templates title).length = 3 := rfl; omega⟩ ∈
            creative_templates title := List.get_mem _ _ _
      have hall : ∀ t ∈ creative_templates title, 76 ≤ t.score ∧ t.score ≤ 93 := by
        intro t ht
        simp only [creative_templates, List.mem_cons, List.not_mem_nil, or_false] at ht
        rcases ht with rfl | rfl | rfl <;> exact ⟨by norm_num, by norm_num⟩
      exact hall _ hmem

/-- Range of the heat-adjusted score for a base score in [76, 93]. -/
theorem adjustScore_bounds (base : Int) (heat : Nat) (h1 : 76 ≤ base) (h2 : base ≤ 93) :
    76 ≤ adjustScore base heat ∧ adjustScore base heat ≤ 100 := by
  unfold adjustScore
  split
  · constructor
    · rcases le_or_lt 100 (base + 8) with h | h
      · rw [min_eq_left h]; norm_num
      · rw [min_eq_right h.le]; omega
    · exact min_le_left _ _
  · split
    · constructor
      · rcases le_or_lt 95 (base + 4) with h | h
        · rw [min_eq_left h]; norm_num
        · rw [min_eq_right h.le]; omega
      · exact le_trans (min_le_left _ _) (by norm_num)
    · exact ⟨h1, by omega⟩

/-- The score field of a rule-based analysis is the heat adjustment of the
selected template's base score. -/
theorem analyze_hotspot_basic_score (title : String) (heat rnd : Nat) :
    (analyze_hotspot_basic title heat rnd).score =
      adjustScore (selectTemplate title rnd).score heat := rfl

/-- The grade field of a rule-based analysis is derived from its score
field by the fixed thresholds. -/
theorem analyze_hotspot_basic_grade (title : String) (heat rnd : Nat) :
    (analyze_hotspot_basic title heat rnd).grade =
      gradeFor (analyze_hotspot_basic title heat rnd).score := rfl

/-! ## C1 -/

/-- C1 counterexample: the claim says the final score is always
min(100, baseScore + bonus) with bonus +4 for 500000 < heat <= 1000000.
The source (line 544) clamps that branch at 95, not 100: the title
"AI产品发布" selects the AI template with base score 93, and heat 600000
yields score min(95, 97) = 95, while the claimed formula gives
min(100, 93 + 4) = 97. -/
theorem C1_counterexample :
    (selectTemplate "AI产品发布" 0).score = 93 ∧
    (analyze_hotspot_basic "AI产品发布" 600000 0).score = 95 ∧
    ((95 : Int) ≠ min 100 (93 + 4)) ∧
    500000 < 600000 ∧ 600000 ≤ 1000000 := by
  refine ⟨by decide, by decide, by decide, by norm_num, by norm_num⟩

/-- C1 amended: the rule-based final score is min(100, base + 8) when
heat > 1,000,000, min(95, base + 4) when 500,000 < heat <= 1,000,000, and
the unmodified base otherwise (source lines 539-546); since every
selectable base score lies in [76, 93], the final score always lies in
[0, 100]. -/
theorem C1_amended (title : String) (heat rnd : Nat) :
    ((analyze_hotspot_basic title heat rnd).score =
      if 1000000 < heat then min 100 ((selectTemplate title rnd).score + 8)
      else if 500000 < heat then min 95 ((selectTemplate title rnd).score + 4)
      else (selectTemplate title rnd).score) ∧
    0 ≤ (analyze_hotspot_basic title heat rnd).score ∧
    (analyze_hotspot_basic title heat rnd).score ≤ 100 := by
  obtain ⟨hb1, hb2⟩ := selectTemplate_score_bounds title rnd
  obtain ⟨ha1, ha2⟩ := adjustScore_bounds (selectTemplate title rnd).score heat hb1 hb2
  refine ⟨rfl, ?_, ?_⟩
  · rw [analyze_hotspot_basic_score]; omega
  · rw [analyze_hotspot_basic_score]; omega

/-! ## C2 -/

/-- C2 counterexample: on the model-backed path the grade is taken verbatim
from the response (default "良好", source line 253), not recomputed from the
score.  A parsed object with score 50 and no grade field yields grade
"良好", while the step function of 50 is "较弱". -/
theorem C2_counterexample :
    ((analyze_with_claude [⟨1, "测试", 0, ""⟩] (.ok [{ score := some 50 }]) fun _ => 0).map
        fun r => (r.analysis.score, r.analysis.grade)) = [((50 : Int), "良好")] ∧
    gradeFor 50 = "较弱" ∧ ("良好" : String) ≠ "较弱" := by
  refine ⟨by decide, by decide, by decide⟩

/-- Every element of `analyze_basic` output carries a grade derived from
its own score by the fixed thresholds. -/
theorem analyzeBasicAux_grade (rnd : Nat → Nat) :
    ∀ (hs : List Hotspot) (i : Nat) (r : TopicResult), r ∈ analyzeBasicAux rnd i hs →
      r.analysis.grade = gradeFor r.analysis.score := by
  intro hs
  induction hs with
  | nil => intro i r hr; simp [analyzeBasicAux] at hr
  | cons h t ih =>
      intro i r hr
      simp only [analyzeBasicAux, List.mem_cons] at hr
      rcases hr with rfl | hr
      · rfl
      · exact ih _ _ hr

/-- C2 amended: the grade equals the fixed step function of the score on
the rule-based path (analyze_hotspot_basic, hence analyze_basic and every
backfilled index of the model-backed path); on the model-backed path, for
indices covered by the parsed array, the grade is the response's grade
field with default "良好", independent of the score. -/
theorem C2_amended :
    (∀ (title : String) (heat rnd : Nat),
      (analyze_hotspot_basic title heat rnd).grade =
        (if (analyze_hotspot_basic title heat rnd).score ≥ 90 then "卓越"
         else if (analyze_hotspot_basic title heat rnd).score ≥ 80 then "优秀"
         else if (analyze_hotspot_basic title heat rnd).score ≥ 70 then "良好"
         else if (analyze_hotspot_basic title heat rnd).score ≥ 60 then "一般"
         else "较弱")) ∧
    (∀ (hotspots : List Hotspot) (rnd : Nat → Nat) (r : TopicResult),
      r ∈ analyze_basic hotspots rnd → r.analysis.grade = gradeFor r.analysis.score) ∧
    (∀ (h : Hotspot) (a : ClaudeItem), (claudeAnalysis h a).grade = a.grade.getD "良好") :=
  ⟨fun _ _ _ => rfl, fun hs rnd r hr => analyzeBasicAux_grade rnd hs 0 r hr, fun _ _ => rfl⟩

/-- Witness for C2 amended at a concrete batch. -/
theorem C2_amended_witness :
    (withAnalysis ⟨1, "AI产品发布", 600000, ""⟩
        (analyze_hotspot_basic "AI产品发布" 600000 0)).analysis.grade =
      gradeFor (withAnalysis ⟨1, "AI产品发布", 600000, ""⟩
        (analyze_hotspot_basic "AI产品发布" 600000 0)).analysis.score :=
  C2_amended.2.1 [⟨1, "AI产品发布", 600000, ""⟩] (fun _ => 0) _ (by decide)

/-! ## C3 -/

/-- The rule-based batch analyzer preserves the topic fields pointwise. -/
theorem analyzeBasicAux_fields (rnd : Nat → Nat) :
    ∀ (hs : List Hotspot) (i : Nat),
      (analyzeBasicAux rnd i hs).map topicFields = hs.map hotspotFields := by
  intro hs
  induction hs with
  | nil => intro i; rfl
  | cons h t ih =>
      intro i
      simp [analyzeBasicAux, ih, topicFields, hotspotFields, withAnalysis]

/-- The model-path merge loop preserves the topic fields pointwise. -/
theorem mergeClaude_fields (rnd : Nat → Nat) :
    ∀ (hs : List Hotspot) (items : List ClaudeItem) (i : Nat),
      (mergeClaude rnd i hs items).map topicFields = hs.map hotspotFields := by
  intro hs
  induction hs with
  | nil => intro items i; cases items <;> rfl
  | cons h t ih =>
      intro items i
      cases items with
      | nil => simp [mergeClaude, ih, topicFields, hotspotFields, withAnalysis]
      | cons a as => simp [mergeClaude, ih, topicFields, hotspotFields, withAnalysis]

/-- C3: both analyzer paths, on every outcome of the model call, return one
result per input topic, in input order, each carrying its topic's rank,
title, heat and tag unchanged with exactly one attached analysis (the
`analysis` field of `TopicResult`). -/
theorem C3 (hotspots : List Hotspot) (outcome : ClaudeOutcome) (rnd : Nat → Nat) :
    (analyze_basic hotspots rnd).length = hotspots.length ∧
    (analyze_with_claude hotspots outcome rnd).length = hotspots.length ∧
    (analyze_basic hotspots rnd).map topicFields = hotspots.map hotspotFields ∧
    (analyze_with_claude hotspots outcome rnd).map topicFields = hotspots.map hotspotFields := by
  have hb := analyzeBasicAux_fields rnd hotspots 0
  have hc : (analyze_with_claude hotspots outcome rnd).map topicFields =
      hotspots.map hotspotFields := by
    cases outcome
    case ok items => exact mergeClaude_fields rnd hotspots items 0
    all_goals exact hb
  refine ⟨?_, ?_, hb, hc⟩
  · have := congrArg List.length hb; simpa using this
  · have := congrArg List.length hc; simpa using this

/-! ## C4 -/

/-- `find?` skips a prefix on which the predicate fails. -/
theorem find?_append_of_none {α : Type} (p : α → Bool) :
    ∀ (l1 l2 : List α), (∀ x ∈ l1, p x = false) → (l1 ++ l2).find? p = l2.find? p := by
  intro l1 l2 h
  induction l1 with
  | nil => rfl
  | cons a t ih =>
      simp only [List.cons_append]
      rw [List.find?_cons_of_neg]
      · exact ih fun x hx => h x (List.mem_cons_of_mem _ hx)
      · simp [h a (List.mem_cons_self a t)]

/-- C4: the rule-based analyzer tests the title against the template table
in declaration order and the first matching pattern's template is selected,
whatever matches later. -/
theorem C4 (title : String) (rnd : Nat) (pre post : List (Pattern × Template))
    (p : Pattern) (t : Template)
    (hsplit : idea_templates = pre ++ (p, t) :: post)
    (hpre : ∀ q ∈ pre, patMatches q.1 title = false)
    (hmatch : patMatches p title = true) :
    selectTemplate title rnd = t := by
  have hfind : findTemplate title = some t := by
    unfold findTemplate
    rw [hsplit, find?_append_of_none _ pre _ hpre,
      show List.find? (fun x => patMatches x.1 title) ((p, t) :: post) = some (p, t) from
        List.find?_cons_of_pos _ hmatch]
    rfl
  simp [selectTemplate, hfind]

/-- Witness for C4: "AI产品发布" fails the first five patterns and matches
the sixth (the AI pattern), whose template is selected for any random
choice. -/
theorem C4_witness :
    selectTemplate "AI产品发布" 9 = (idea_templates.get ⟨5, by decide⟩).2 :=
  C4 "AI产品发布" 9 (idea_templates.take 5) (idea_templates.drop 6)
    (idea_templates.get ⟨5, by decide⟩).1 (idea_templates.get ⟨5, by decide⟩).2
    (by decide) (by decide) (by decide)

/-! ## C5 -/

/-- C5: when no bracketed JSON-array substring is found, when JSON parsing
fails, or when the external call raises, `analyze_with_claude` returns
exactly the batch `analyze_basic` produces for the same input and the same
nondeterministic choices — the whole batch falls back (source lines 263-272). -/
theorem C5 (hotspots : List Hotspot) (rnd : Nat → Nat) (outcome : ClaudeOutcome)
    (hfail : outcome = .noJsonArray ∨ outcome = .parseFailure ∨ outcome = .apiError) :
    analyze_with_claude hotspots outcome rnd = analyze_basic hotspots rnd := by
  rcases hfail with rfl | rfl | rfl <;> rfl

/-- Witness for C5 at a concrete batch and failure outcome. -/
theorem C5_witness :
    analyze_with_claude [⟨1, "测试", 0, ""⟩] .noJsonArray (fun _ => 0) =
      analyze_basic [⟨1, "测试", 0, ""⟩] (fun _ => 0) :=
  C5 [⟨1, "测试", 0, ""⟩] (fun _ => 0) .noJsonArray (Or.inl rfl)

/-! ## C6 -/

/-- Indexing the model-path merge: index `i` of the output is the parsed
object's analysis when the array has an element at `i`. -/
theorem mergeClaude_get?_hit (rnd : Nat → Nat) :
    ∀ (hs : List Hotspot) (items : List ClaudeItem) (k i : Nat) (h : Hotspot)
      (a : ClaudeItem), hs.get? i = some h → items.get? i = some a →
      (mergeClaude rnd k hs items).get? i = some (withAnalysis h (claudeAnalysis h a)) := by
  intro hs
  induction hs with
  | nil => intro items k i h a hh _; simp at hh
  | cons x xs ih =>
      intro items k i h a hh ha
      cases items with
      | nil => simp at ha
      | cons b bs =>
          cases i with
          | zero =>
              simp only [List.get?] at hh ha
              cases hh; cases ha; rfl
          | succ j =>
              simp only [List.get?] at hh ha
              simpa [mergeClaude] using ih bs (k + 1) j h a hh ha

/-- Indexing the model-path merge: index `i` of the output is the
rule-based backfill when the parsed array is exhausted. -/
theorem mergeClaude_get?_miss (rnd : Nat → Nat) :
    ∀ (hs : List Hotspot) (items : List ClaudeItem) (k i : Nat) (h : Hotspot),
      hs.get? i = some h → items.length ≤ i →
      (mergeClaude rnd k hs items).get? i =
        some (withAnalysis h (analyze_hotspot_basic h.title h.heat (rnd (k + i)))) := by
  intro hs
  induction hs with
  | nil => intro items k i h hh _; simp at hh
  | cons x xs ih =>
      intro items k i h hh hlen
      cases items with
      | nil =>
          cases i with
          | zero => simp only [List.get?] at hh; cases hh; rfl
          | succ j =>
              simp only [List.get?] at hh
              have := ih [] (k + 1) j h hh (by simp)
              simpa [mergeClaude, Nat.add_assoc, Nat.add_comm 1 j] using this
      | cons b bs =>
          cases i with
          | zero => simp at hlen
          | succ j =>
              simp only [List.get?] at hh
              have := ih bs (k + 1) j h hh (by simpa using hlen)
              simpa [mergeClaude, Nat.add_assoc, Nat.add_comm 1 j] using this

/-- C6: with a parsed array of k objects and n > k input topics, the
model-backed analyzer uses the parsed object's fields (with the per-field
defaults for missing fields) at each index covered by the array, and fills
exactly the remaining indices k..n-1 with the rule-based per-topic
analyzer. -/
theorem C6 (hotspots : List Hotspot) (items : List ClaudeItem) (rnd : Nat → Nat) (i : Nat) :
    (∀ (h : Hotspot) (a : ClaudeItem), hotspots.get? i = some h → items.get? i = some a →
      (analyze_with_claude hotspots (.ok items) rnd).get? i =
        some (withAnalysis h (claudeAnalysis h a))) ∧
    (∀ h : Hotspot, hotspots.get? i = some h → items.length ≤ i →
      (analyze_with_claude hotspots (.ok items) rnd).get? i =
        some (withAnalysis h (analyze_hotspot_basic h.title h.heat (rnd i)))) ∧
    (∀ (h : Hotspot) (a : ClaudeItem), a.name = none →
      (claudeAnalysis h a).name = h.title ++ "创意产品") ∧
    (∀ (h : Hotspot) (a : ClaudeItem), a.score = none → (claudeAnalysis h a).score = 75) ∧
    (∀ (h : Hotspot) (a : ClaudeItem), a.grade = none → (claudeAnalysis h a).grade = "良好") := by
  refine ⟨fun h a hh ha => mergeClaude_get?_hit rnd hotspots items 0 i h a hh ha,
    fun h hh hlen => ?_,
    fun h a hn => by simp [claudeAnalysis, hn],
    fun h a hn => by simp [claudeAnalysis, hn],
    fun h a hn => by simp [claudeAnalysis, hn]⟩
  simpa using mergeClaude_get?_miss rnd hotspots items 0 i h hh hlen

/-- Witness for C6: two topics, a one-object parsed array; index 0 is the
parsed object with defaults, index 1 is the rule-based backfill. -/
theorem C6_witness :
    (analyze_with_claude [⟨1, "甲", 0, ""⟩, ⟨2, "乙", 0, ""⟩]
        (.ok [{ score := some 50 }]) fun _ => 0).get? 1 =
      some (withAnalysis ⟨2, "乙", 0, ""⟩ (analyze_hotspot_basic "乙" 0 0)) :=
  (C6 [⟨1, "甲", 0, ""⟩, ⟨2, "乙", 0, ""⟩] [{ score := some 50 }] (fun _ => 0) 1).2.1
    ⟨2, "乙", 0, ""⟩ (by decide) (by decide)

/-! ## C7 -/

/-- C7 counterexample: an entry whose heat string is non-empty but contains
no digit ("爆") makes `int('')` raise (source line 95), the surrounding
handler returns the empty list, and the whole batch is lost — the entry
does not yield a record with heat 0. -/
theorem C7_counterexample :
    fetch_hotspots [{ hotword := some "某话题", hotwordnum := some "爆" }] 10 = [] ∧
    ([{ hotword := some "某话题", hotwordnum := some "爆" }] : List RawItem).length = 1 := by
  refine ⟨by decide, by decide⟩

/-- On heat-ok entries the per-entry build succeeds with the described
record. -/
theorem buildHotspot_ok (rank : Nat) (it : RawItem) (h : heatOk it) :
    buildHotspot rank it = .ok
      { rank := rank
        title := strip (it.hotword.getD "")
        heat := digitsToNat ((strip (it.hotwordnum.getD "0")).data.filter Char.isDigit)
        tag := strip (it.hottag.getD "") } := by
  unfold buildHotspot parseHeat
  rcases h with h | h
  · rw [if_pos h]
    simp only [Except.map]
    have : (strip (it.hotwordnum.getD "0")).data = [] := by
      simpa [List.isEmpty_iff] using h
    rw [this]
    rfl
  · have hne : ¬ (strip (it.hotwordnum.getD "0")).data.isEmpty = true := by
      rcases List.any_eq_true.mp h with ⟨c, hc, _⟩
      simp [List.isEmpty_iff]
      intro habs
      rw [habs] at hc
      cases hc
    rw [if_neg hne]
    have hds : ¬ ((strip (it.hotwordnum.getD "0")).data.filter Char.isDigit).isEmpty = true := by
      rcases List.any_eq_true.mp h with ⟨c, hc, hdig⟩
      simp [List.isEmpty_iff, List.filter_eq_nil_iff]
      exact ⟨c, hc, by simpa using hdig⟩
    simp only [hds, if_neg, ite_false]
    rfl

/-- The build loop succeeds on a list of heat-ok entries and produces the
described records. -/
theorem buildHotspots_ok :
    ∀ (its : List RawItem) (rank : Nat), (∀ it ∈ its, heatOk it) →
      buildHotspots rank its = .ok (specHotspots rank its) := by
  intro its
  induction its with
  | nil => intro rank _; rfl
  | cons it rest ih =>
      intro rank h
      have h1 := buildHotspot_ok rank it (h it (List.mem_cons_self it rest))
      have h2 := ih (rank + 1) fun x hx => h x (List.mem_cons_of_mem _ hx)
      simp only [buildHotspots, h1, h2, specHotspots]
      rfl

/-- C7 amended: the heat field is the integer value of the digits of the
stripped heat string, 0 when that string is empty — but only on batches
where no entry has a non-empty digit-free heat string; such an entry makes
the whole fetch return the empty list (see the counterexample), so the
per-entry recovery claimed by the spec does not hold unconditionally. -/
theorem C7_amended (result_list : List RawItem) (limit : Nat)
    (h : ∀ it ∈ result_list, heatOk it) :
    fetch_hotspots result_list limit = specHotspots 1 (result_list.take limit) := by
  unfold fetch_hotspots
  rw [buildHotspots_ok (result_list.take limit) 1
    fun it hit => h it (List.take_subset limit result_list hit)]

/-- Witness for C7 amended: a batch with a thousands-separated heat string
and an empty heat string parses locally, heat 1234 and 0. -/
theorem C7_amended_witness :
    (∀ it ∈ ([{ hotword := some " 话题 ", hotwordnum := some " 1,234万 " },
               { hotword := some "乙", hotwordnum := some "", hottag := some "新" }] :
        List RawItem), heatOk it) ∧
    fetch_hotspots [{ hotword := some " 话题 ", hotwordnum := some " 1,234万 " },
        { hotword := some "乙", hotwordnum := some "", hottag := some "新" }] 10 =
      [⟨1, "话题", 1234, ""⟩, ⟨2, "乙", 0, "新"⟩] := by
  refine ⟨by decide, ?_⟩
  rw [C7_amended _ 10 (by decide)]
  decide

/-! ## C8 -/

/-- C8: on every title that matches some declared pattern the rule-based
analyzer is deterministic — the nondeterministic fallback choice is never
consulted, so any two choices give equal results. -/
theorem C8 (title : String) (heat : Nat) (r1 r2 : Nat)
    (h : ∃ pt ∈ idea_templates, patMatches pt.1 title = true) :
    analyze_hotspot_basic title heat r1 = analyze_hotspot_basic title heat r2 := by
  have hfind : (idea_templates.find? fun pt => patMatches pt.1 title).isSome = true :=
    List.find?_isSome.mpr h
  rcases Option.isSome_iff_exists.mp hfind with ⟨pt, hpt⟩
  have hsel : ∀ r : Nat, selectTemplate title r = pt.2 := by
    intro r
    simp [selectTemplate, findTemplate, hpt]
  unfold analyze_hotspot_basic
  rw [hsel r1, hsel r2]

/-- Witness for C8: "AI产品发布" matches the AI pattern, and two different
random choices give the same analysis. -/
theorem C8_witness :
    (∃ pt ∈ idea_templates, patMatches pt.1 "AI产品发布" = true) ∧
    analyze_hotspot_basic "AI产品发布" 600000 0 = analyze_hotspot_basic "AI产品发布" 600000 7 :=
  ⟨by decide, C8 "AI产品发布" 600000 0 7 (by decide)⟩

/-! ## C9 -/

/-- Stability of one insertion step: inserting `x` by descending count
leaves the subsequence of any fixed count `c` unchanged except for `x`
itself, which lands in front of the entries of its own count (the entries
it is placed after all have a strictly larger count). -/
theorem filter_orderedInsert (x : String × Nat) (c : Nat) :
    ∀ l : List (String × Nat),
      (List.orderedInsert countGe x l).filter (fun e => e.2 == c) =
        if x.2 = c then x :: l.filter (fun e => e.2 == c)
        else l.filter (fun e => e.2 == c) := by
  intro l
  induction l with
  | nil => by_cases hx : x.2 = c <;> simp [List.orderedInsert, hx]
  | cons y ys ih =>
      by_cases hxy : countGe x y
      · by_cases hx : x.2 = c <;>
          simp [List.orderedInsert, hxy, hx, List.filter_cons]
      · have hlt : x.2 < y.2 := by
          simp only [countGe, not_le] at hxy; exact hxy
        by_cases hx : x.2 = c
        · have hy : ¬ y.2 = c := by omega
          simp [List.orderedInsert, hxy, List.filter_cons, hx, hy, ih]
        · simp [List.orderedInsert, hxy, List.filter_cons, hx, ih]

/-- Stability of the descending-count insertion sort: the entries of each
fixed count keep their input order. -/
theorem filter_insertionSort (c : Nat) :
    ∀ l : List (String × Nat),
      (List.insertionSort countGe l).filter (fun e => e.2 == c) =
        l.filter (fun e => e.2 == c) := by
  intro l
  induction l with
  | nil => rfl
  | cons x xs ih =>
      simp only [List.insertionSort, filter_orderedInsert, ih, List.filter_cons]
      by_cases hx : x.2 = c <;> simp [hx]

/-- The keys of the tally after one bump: unchanged when the category is
already present, appended at the end when first seen. -/
theorem bumpCat_map_fst (cat : String) :
    ∀ m : List (String × Nat),
      (bumpCat m cat).map Prod.fst =
        if cat ∈ m.map Prod.fst then m.map Prod.fst else m.map Prod.fst ++ [cat] := by
  intro m
  induction m with
  | nil => simp [bumpCat]
  | cons p rest ih =>
      obtain ⟨pc, pn⟩ := p
      by_cases hp : pc = cat
      · subst hp; simp [bumpCat]
      · have hp' : ¬ cat = pc := fun h => hp h.symm
        by_cases hm : cat ∈ rest.map Prod.fst <;>
          simp [bumpCat, hp, hp', hm, ih]

/-- The tally keys are exactly the categories in first-seen scan order. -/
theorem categoryCounts_fst :
    ∀ (rs : List TopicResult) (m : List (String × Nat)),
      (rs.foldl (fun m r => bumpCat m r.analysis.category) m).map Prod.fst =
        rs.foldl (fun acc r => if r.analysis.category ∈ acc then acc
          else acc ++ [r.analysis.category]) (m.map Prod.fst) := by
  intro rs
  induction rs with
  | nil => intro m; rfl
  | cons r rest ih =>
      intro m
      simp only [List.foldl_cons]
      rw [ih, bumpCat_map_fst]

/-- C9: the per-category breakdown of the report is the category tally
sorted by count descending (`List.Sorted countGe`), is a permutation of
the tally, preserves the relative order of equal-count entries (the
filtered subsequence of each count value is unchanged), and the tally
itself lists the categories in first-seen order of the rank-ordered scan —
so equal counts appear in first-seen order. -/
theorem C9 (results : List TopicResult) :
    List.Sorted countGe (categoryBreakdown results) ∧
    (∀ c : Nat, (categoryBreakdown results).filter (fun e => e.2 == c) =
      (categoryCounts results).filter (fun e => e.2 == c)) ∧
    (categoryBreakdown results).Perm (categoryCounts results) ∧
    (categoryCounts results).map Prod.fst = firstSeenCats results := by
  refine ⟨List.sorted_insertionSort countGe _, fun c => filter_insertionSort c _,
    List.perm_insertionSort countGe _, ?_⟩
  unfold categoryCounts firstSeenCats
  simpa using categoryCounts_fst results []

/-! ## C10 -/

/-- C10: every rule-based analysis has score in [76, 100] — every declared
and fallback template has base score at least 76 and the heat adjustment
keeps the score in range — so its grade is always 良好 or better, never
一般 or 较弱. -/
theorem C10 (title : String) (heat rnd : Nat) :
    76 ≤ (analyze_hotspot_basic title heat rnd).score ∧
    (analyze_hotspot_basic title heat rnd).score ≤ 100 ∧
    (analyze_hotspot_basic title heat rnd).grade ∈ (["卓越", "优秀", "良好"] : List String) := by
  obtain ⟨hb1, hb2⟩ := selectTemplate_score_bounds title rnd
  obtain ⟨ha1, ha2⟩ := adjustScore_bounds (selectTemplate title rnd).score heat hb1 hb2
  refine ⟨by rw [analyze_hotspot_basic_score]; exact ha1,
    by rw [analyze_hotspot_basic_score]; exact ha2, ?_⟩
  rw [analyze_hotspot_basic_grade, analyze_hotspot_basic_score]
  set s := adjustScore (selectTemplate title rnd).score heat with hs
  unfold gradeFor
  by_cases h90 : s ≥ 90
  · simp [h90]
  · by_cases h80 : s ≥ 80
    · simp [h90, h80]
    · have h70 : s ≥ 70 := by omega
      simp [h90, h80, h70]
